import Mathlib

/-!
# Verification of the `sqlnull` Go package (`sqlnull.go`)

Shallow embedding of the package's three operations and their data model:

* `validateType` / `validate` embed the `validate` function: the shape and
  kind analysis performed with `reflect` on the destination type.
* `Target` and `Scanner` embed the wrapping functions of the same names.
* `NullValue.scan` embeds the `Scan` method of `NullValue`.  `Scan` mutates
  the `*T` cell that a supported `**T` destination points at; that mutable
  cell is threaded explicitly as a `Slot` together with an allocation
  counter `fresh` (allocation identifiers below `fresh` denote storage that
  already existed before the call, `fresh` is the identifier the next
  `reflect.New` allocation receives).

The canonical nullable holders (`sql.NullBool`, `sql.NullByte`, …) and the
row-fetch engine (`database/sql`) are external collaborators of the package;
they are modelled from their documented contract where the claims need them
(`holderScan`, `discardAccept`).
-/

namespace Sqlnull

/-- The `reflect.Kind` values relevant to this package.  Kinds that the
package never distinguishes (slices, maps, channels, functions, complex
numbers, …) are lumped into `other`; the empty-interface kind is kept
separate because `Target` produces `*any` discard values. -/
inductive GoKind where
  | bool | int | int8 | int16 | int32 | int64
  | uint | uint8 | uint16 | uint32 | uint64
  | float32 | float64 | string | struct | ptr | interface | other
  deriving DecidableEq, Repr

/-- Go types as `reflect` sees them.  `timeTime` is the `time.Time` struct
type; `structT id` is any other struct type (identified nominally by `id`);
`named id u` is a user-declared named (defined) type with underlying type
`u`; `anyT` is the empty interface type `any`; `otherT id` stands for the
types of the remaining kinds. -/
inductive GoType where
  | bool | int | int8 | int16 | int32 | int64
  | uint | uint8 | uint16 | uint32 | uint64
  | float32 | float64 | string
  | timeTime
  | structT (id : Nat)
  | ptr (t : GoType)
  | named (id : Nat) (u : GoType)
  | anyT
  | otherT (id : Nat)
  deriving DecidableEq, Repr

/-- The underlying (unnamed) type of a Go type: resolve chains of named
type definitions. -/
def GoType.underlying : GoType → GoType
  | .named _ u => u.underlying
  | t => t

/-- `reflect.Type.Kind`: the kind of the underlying type. -/
def GoType.kind (t : GoType) : GoKind :=
  match t.underlying with
  | .bool => .bool
  | .int => .int
  | .int8 => .int8
  | .int16 => .int16
  | .int32 => .int32
  | .int64 => .int64
  | .uint => .uint
  | .uint8 => .uint8
  | .uint16 => .uint16
  | .uint32 => .uint32
  | .uint64 => .uint64
  | .float32 => .float32
  | .float64 => .float64
  | .string => .string
  | .timeTime => .struct
  | .structT _ => .struct
  | .ptr _ => .ptr
  | .anyT => .interface
  | .otherT _ => .other
  | .named _ _ => .other

/-- `reflect.Type.Elem` for pointer types: the pointee of the underlying
pointer type.  `reflect` panics on non-pointer kinds; the source only calls
`Elem` under a `Kind() == reflect.Ptr` guard, so the value returned in the
non-pointer branch here is never observed. -/
def GoType.elem (t : GoType) : GoType :=
  match t.underlying with
  | .ptr u => u
  | _ => t

/-- The eight canonical scalar kinds; each tags the `database/sql` holder
that `validate` selects (`sql.NullBool`, `sql.NullByte`, `sql.NullInt16`,
`sql.NullInt32`, `sql.NullInt64`, `sql.NullString`, `sql.NullFloat64`,
`sql.NullTime`). -/
inductive ScalarKind where
  | boolean | byte | int16 | int32 | int64 | text | float | timestamp
  deriving DecidableEq, Repr

/-- Outcome of `validate`: success carries the selected holder kind and the
destination's type (the source returns the `sql.Scanner` holder and
`targetType`); `unsupported` is the `fmt.Errorf("NullValue for %T type is
not supported", target)` error; `panics` is the nil-pointer dereference
reached when `reflect.TypeOf(target)` is the nil `reflect.Type` and `Kind`
is invoked on it. -/
inductive ValidateOutcome where
  | ok (k : ScalarKind) (ty : GoType)
  | unsupported
  | panics
  deriving DecidableEq, Repr

/-- Whether validation succeeded (in the source: the returned `error` is
nil). -/
def ValidateOutcome.isOk : ValidateOutcome → Bool
  | .ok _ _ => true
  | _ => false

/-- The type analysis of `validate` on a non-nil target's type: the
destination must be a pointer to a pointer, and the innermost type's kind
selects the holder per the switch in the source; for struct kinds only the
exact type `time.Time` is accepted. -/
def validateType (targetType : GoType) : ValidateOutcome :=
  if targetType.kind = .ptr ∧ targetType.elem.kind = .ptr then
    match targetType.elem.elem.kind with
    | .bool => .ok .boolean targetType
    | .uint8 => .ok .byte targetType
    | .int8 => .ok .int16 targetType
    | .int16 => .ok .int16 targetType
    | .uint16 => .ok .int16 targetType
    | .int32 => .ok .int32 targetType
    | .uint32 => .ok .int32 targetType
    | .int64 => .ok .int64 targetType
    | .uint64 => .ok .int64 targetType
    | .int => .ok .int64 targetType
    | .uint => .ok .int64 targetType
    | .string => .ok .text targetType
    | .float32 => .ok .float targetType
    | .float64 => .ok .float targetType
    | .struct =>
        if targetType.elem.elem = .timeTime then .ok .timestamp targetType
        else .unsupported
    | _ => .unsupported
  else .unsupported

/-- A Go `any` value in the domain this package handles: the nil interface,
an arbitrary non-nil value of some dynamic type (`prim ty id`, with `id`
distinguishing distinct values of the same type), a `*NullValue` produced
by `New`, or a `*any` produced by `new(any)` in `Target`. -/
inductive GoAny where
  | nil
  | prim (ty : GoType) (id : Nat)
  | nullValuePtr (target : GoAny)
  | anyPtr (id : Nat)
  deriving DecidableEq, Repr

/-- The struct type `sqlnull.NullValue`. -/
def nullValueStruct : GoType := .structT 0

/-- `reflect.TypeOf`: `none` is the nil `reflect.Type` returned for the nil
interface. -/
def typeOf : GoAny → Option GoType
  | .nil => none
  | .prim ty _ => some ty
  | .nullValuePtr _ => some (.ptr nullValueStruct)
  | .anyPtr _ => some (.ptr .anyT)

/-- `validate(target any)`: take `reflect.TypeOf(target)` and analyse it.
On a nil target `reflect.TypeOf` returns the nil `reflect.Type`, and the
immediate `targetType.Kind()` call dereferences it: a panic, not an
error. -/
def validate (target : GoAny) : ValidateOutcome :=
  match typeOf target with
  | none => .panics
  | some t => validateType t

/-- `New(target)`: wrap the target in a `NullValue`, with no nil check. -/
def New (target : GoAny) : GoAny := .nullValuePtr target

/-- `Target(target)`: a discard `*any` for nil input, a `NullValue` wrapper
when `validate` succeeds, the original value otherwise. -/
def Target (target : GoAny) : GoAny :=
  if target = GoAny.nil then .anyPtr 0
  else if (validate target).isOk then New target
  else target

/-- `Scanner(targets...)`: wrap each target with `Target`, in order. -/
def Scanner (targets : List GoAny) : List GoAny := targets.map Target

/-- `driver.Value`: the loosely-typed raw values exchanged with the
row-fetch engine (absence, SQL NULL, is represented by `Option.none` at the
use sites).  `time.Time` instants are modelled abstractly as integers;
float64 values are carried as their 64-bit patterns. -/
inductive DriverVal where
  | bool (b : Bool)
  | int64 (n : Int)
  | float64 (bits : Nat)
  | string (s : String)
  | time (instant : Int)
  deriving DecidableEq, Repr

/-- Modelled from the spec: the canonical nullable holders are the
`database/sql` `Null*` types, external collaborators of this repository,
used through their `Scan`-then-`Value` contract.  A `none` (SQL null)
source always yields the absent holder; a present source is converted by
the holder's native parsing rule — the identity on a value already of the
holder's native representation, integer range checks for the sized integer
holders, 0/1 integers for booleans — and `Value()` then reports integers
uniformly as `int64`.  Source/holder combinations outside this modelled
fragment are conversion errors. -/
def holderScan (k : ScalarKind) (src : Option DriverVal) :
    Except Unit (Option DriverVal) :=
  match src with
  | none => .ok none
  | some d =>
    match k, d with
    | .boolean, .bool b => .ok (some (.bool b))
    | .boolean, .int64 n =>
        if n = 0 then .ok (some (.bool false))
        else if n = 1 then .ok (some (.bool true))
        else .error ()
    | .byte, .int64 n =>
        if 0 ≤ n ∧ n < 256 then .ok (some (.int64 n)) else .error ()
    | .int16, .int64 n =>
        if -32768 ≤ n ∧ n < 32768 then .ok (some (.int64 n)) else .error ()
    | .int32, .int64 n =>
        if -2147483648 ≤ n ∧ n < 2147483648 then .ok (some (.int64 n))
        else .error ()
    | .int64, .int64 n => .ok (some (.int64 n))
    | .text, .string s => .ok (some (.string s))
    | .float, .float64 bits => .ok (some (.float64 bits))
    | .timestamp, .time instant => .ok (some (.time instant))
    | _, _ => .error ()

/-- Wrap an integer into the unsigned `w`-bit range, as a Go conversion to
an unsigned integer type of width `w` does. -/
def wrapU (w : Nat) (n : Int) : Int := n % ((2 : Int) ^ w)

/-- Wrap an integer into the signed `w`-bit range, as a Go conversion to a
signed integer type of width `w` does. -/
def wrapS (w : Nat) (n : Int) : Int :=
  (n + (2 : Int) ^ (w - 1)) % (2 : Int) ^ w - (2 : Int) ^ (w - 1)

/-- Round `m / 2^sh` to the nearest integer, ties to even. -/
def roundNE (m : Nat) (sh : Nat) : Nat :=
  if sh = 0 then m
  else
    let q := m >>> sh
    let r := m % (1 <<< sh)
    let half := 1 <<< (sh - 1)
    if r > half ∨ (r = half ∧ q % 2 = 1) then q + 1 else q

/-- The Go conversion `float32(x)` on a float64 bit pattern: IEEE-754
round-to-nearest-even narrowing to a float32 bit pattern (models the
behaviour of `reflect.Value.Convert` to a 32-bit float type). -/
def f64tof32 (b : Nat) : Nat :=
  let s := (b >>> 63) % 2
  let e := (b >>> 52) % 2048
  let m := b % (2 ^ 52)
  if e = 2047 then
    s * 2 ^ 31 + 255 * 2 ^ 23 + (if m = 0 then 0 else (m >>> 29) ||| 2 ^ 22)
  else
    let M : Nat := if e = 0 then m else 2 ^ 52 + m
    let E : Int := if e = 0 then -1074 else (e : Int) - 1075
    if M = 0 then s * 2 ^ 31
    else
      let ex : Int := E + Nat.log2 M
      if ex < -126 then
        let sh : Int := E + 149
        let T := if 0 ≤ sh then M <<< sh.toNat else roundNE M (-sh).toNat
        if T < 2 ^ 23 then s * 2 ^ 31 + T
        else s * 2 ^ 31 + 1 * 2 ^ 23 + (T - 2 ^ 23)
      else
        let k := Nat.log2 M
        let T := if k ≤ 23 then M <<< (23 - k) else roundNE M (k - 23)
        let ex := if T = 2 ^ 24 then ex + 1 else ex
        let T := if T = 2 ^ 24 then 2 ^ 23 else T
        if 127 < ex then s * 2 ^ 31 + 255 * 2 ^ 23
        else s * 2 ^ 31 + (ex + 127).toNat * 2 ^ 23 + (T - 2 ^ 23)

/-- Values held in destination storage, identified by representation (a
named destination type holds the same representation as its underlying
type). -/
inductive GoVal where
  | bool (b : Bool)
  | int (n : Int)
  | str (s : String)
  | float64v (bits : Nat)
  | float32v (bits : Nat)
  | time (instant : Int)
  deriving DecidableEq, Repr

/-- `reflect.ValueOf(v).Convert(t)` for the driver values produced by the
holders and the destination types admitted by `validate`: conversions
between a value and a type of the same kind category (identity on
booleans, strings and instants; wrapping on integers; IEEE narrowing to
32-bit floats).  Pairs outside this table make `Convert` panic in Go;
`none` marks them and is unreachable for validated destinations. -/
def goConvert (v : DriverVal) (t : GoType) : Option GoVal :=
  match v, t.kind with
  | .bool b, .bool => some (.bool b)
  | .int64 n, .uint8 => some (.int (wrapU 8 n))
  | .int64 n, .int8 => some (.int (wrapS 8 n))
  | .int64 n, .int16 => some (.int (wrapS 16 n))
  | .int64 n, .uint16 => some (.int (wrapU 16 n))
  | .int64 n, .int32 => some (.int (wrapS 32 n))
  | .int64 n, .uint32 => some (.int (wrapU 32 n))
  | .int64 n, .int64 => some (.int (wrapS 64 n))
  | .int64 n, .uint64 => some (.int (wrapU 64 n))
  | .int64 n, .int => some (.int (wrapS 64 n))
  | .int64 n, .uint => some (.int (wrapU 64 n))
  | .string s, .string => some (.str s)
  | .float64 bits, .float64 => some (.float64v bits)
  | .float64 bits, .float32 => some (.float32v (f64tof32 bits))
  | .time instant, .struct =>
      if t.underlying = .timeTime then some (.time instant) else none
  | _, _ => none

/-- The state of the `*T` cell a `**T` destination points at: the inner
pointer is nil, or points at storage with allocation identifier `id`
holding value `v`. -/
inductive Slot where
  | nil
  | alloc (id : Nat) (v : GoVal)
  deriving DecidableEq, Repr

/-- The two error kinds of the package's taxonomy. -/
inductive ScanError where
  | unsupportedDestination
  | conversionError
  deriving DecidableEq, Repr

/-- The result of one `Scan` call together with the destination cell's
state after the call. -/
inductive ScanOutcome where
  | ok (slot : Slot) (fresh : Nat)
  | err (e : ScanError) (slot : Slot) (fresh : Nat)
  | panics
  deriving DecidableEq, Repr

/-- `(&NullValue{target}).Scan(src)`.  Steps of the source in order:
`validate` the captured target (errors are returned before any mutation);
let the selected holder scan `src` (its error is returned before any
mutation); ask the holder for its `driver.Value`.  A nil value zeroes the
inner pointer (`val.Set(reflect.Zero(targetType.Elem()))`).  A present
value is converted to the innermost declared type; if the inner pointer is
nil (`!val.Elem().CanAddr()`) a fresh allocation is made with
`reflect.New`, otherwise the existing storage is written through
(`val.Elem().Set`). -/
def NullValue.scan (target : GoAny) (slot : Slot) (fresh : Nat)
    (src : Option DriverVal) : ScanOutcome :=
  match validate target with
  | .panics => .panics
  | .unsupported => .err .unsupportedDestination slot fresh
  | .ok k ty =>
    match holderScan k src with
    | .error _ => .err .conversionError slot fresh
    | .ok none => .ok .nil fresh
    | .ok (some v) =>
      match goConvert v ty.elem.elem with
      | none => .panics
      | some w =>
        match slot with
        | .nil => .ok (.alloc fresh w) (fresh + 1)
        | .alloc id _ => .ok (.alloc id w) fresh

/-- Modelled from the spec: the row-fetch engine (`database/sql`, external
to this repository) natively scans any raw value into the `*any` discard
target produced for a nil destination, accepting and ignoring it without
failing. -/
def discardAccept (_ : Option DriverVal) : Except ScanError Unit :=
  .ok ()

/-- The fixed classification table of the specification: the scalar kind a
destination's innermost type maps to, by its underlying representation
kind, with the timestamp row holding exactly for the `time.Time` struct. -/
def specScalarKind (T : GoType) : Option ScalarKind :=
  match T.kind with
  | .bool => some .boolean
  | .uint8 => some .byte
  | .int8 => some .int16
  | .int16 => some .int16
  | .uint16 => some .int16
  | .int32 => some .int32
  | .uint32 => some .int32
  | .int64 => some .int64
  | .uint64 => some .int64
  | .int => some .int64
  | .uint => some .int64
  | .string => some .text
  | .float32 => some .float
  | .float64 => some .float
  | .struct => if T = .timeTime then some .timestamp else none
  | _ => none

/-! ## Helper lemmas -/

theorem underlying_ptr (t : GoType) : (GoType.ptr t).underlying = .ptr t := rfl

theorem underlying_named (i : Nat) (u : GoType) :
    (GoType.named i u).underlying = u.underlying := rfl

theorem kind_ptr (t : GoType) : (GoType.ptr t).kind = .ptr := rfl

theorem elem_ptr (t : GoType) : (GoType.ptr t).elem = t := rfl

theorem kind_named (i : Nat) (u : GoType) : (GoType.named i u).kind = u.kind := by
  unfold GoType.kind
  rw [underlying_named]

/-- Unfolding of `NullValue.scan` on a destination that `validate`
accepts. -/
theorem scan_validated (target : GoAny) (k : ScalarKind) (ty : GoType)
    (slot : Slot) (fresh : Nat) (src : Option DriverVal)
    (h : validate target = ValidateOutcome.ok k ty) :
    NullValue.scan target slot fresh src =
      match holderScan k src with
      | .error _ => .err .conversionError slot fresh
      | .ok none => .ok .nil fresh
      | .ok (some v) =>
        match goConvert v ty.elem.elem with
        | none => .panics
        | some w =>
          match slot with
          | .nil => .ok (.alloc fresh w) (fresh + 1)
          | .alloc id _ => .ok (.alloc id w) fresh := by
  unfold NullValue.scan
  rw [h]

/-! ## Claims -/

/-- **C1.**  For every destination whose shape is pointer-to-pointer-to-`T`,
`validate` returns the scalar kind given by the fixed table (bool → boolean,
uint8 → byte, int8/int16/uint16 → int16, int32/uint32 → int32,
int64/uint64/int/uint → int64, string → text, float32/float64 → float, the
`time.Time` struct → timestamp), and every destination of any other shape —
not a pointer, a pointer to a non-pointer (which also covers an innermost
kind outside the eight and three or more levels of indirection, both of
which fall under `specScalarKind _ = none`) — fails with the
unsupported-destination error. -/
theorem validate_scalar_kind_table (T t : GoType) :
    (validateType (.ptr (.ptr T)) =
      match specScalarKind T with
      | some k => .ok k (.ptr (.ptr T))
      | none => .unsupported)
    ∧ (t.kind ≠ .ptr → validateType t = .unsupported)
    ∧ (t.kind = .ptr → t.elem.kind ≠ .ptr → validateType t = .unsupported) := by
  refine ⟨?_, ?_, ?_⟩
  · simp only [validateType, kind_ptr, elem_ptr, and_self, if_true]
    cases hk : T.kind <;> simp [specScalarKind, hk]
    by_cases hT : T = GoType.timeTime <;> simp [hT]
  · intro h
    simp only [validateType]
    rw [if_neg (fun hc => h hc.1)]
  · intro h1 h2
    simp only [validateType]
    rw [if_neg (fun hc => h2 hc.2)]

/-- Witness for C1: a `**bool` destination resolves to the boolean kind and
an `int` destination (not a pointer) is unsupported. -/
theorem validate_scalar_kind_table_witness :
    validateType (.ptr (.ptr .bool)) = ValidateOutcome.ok .boolean (.ptr (.ptr .bool))
    ∧ validateType GoType.int = ValidateOutcome.unsupported :=
  ⟨(validate_scalar_kind_table GoType.bool GoType.int).1,
   (validate_scalar_kind_table GoType.bool GoType.int).2.1 (by decide)⟩

/-- **C8.**  `validate` is pure: its result depends only on the
destination's type (`reflect.TypeOf(target)`), so two invocations on
destinations of the same type return identical results.  The embedding's
type makes the absence of mutation explicit: `validate` consumes no state
and returns only a classification outcome. -/
theorem validate_depends_only_on_type (a b : GoAny) (h : typeOf a = typeOf b) :
    validate a = validate b := by
  unfold validate
  rw [h]

/-- Witness for C8: two distinct `**bool` destinations validate
identically. -/
theorem validate_depends_only_on_type_witness :
    typeOf (GoAny.prim (.ptr (.ptr .bool)) 0) = typeOf (GoAny.prim (.ptr (.ptr .bool)) 99)
    ∧ validate (GoAny.prim (.ptr (.ptr .bool)) 0)
        = validate (GoAny.prim (.ptr (.ptr .bool)) 99) :=
  ⟨rfl,
   validate_depends_only_on_type (GoAny.prim (.ptr (.ptr .bool)) 0)
     (GoAny.prim (.ptr (.ptr .bool)) 99) rfl⟩

/-- **C9.**  `New(nil)` performs no nil check and captures the nil target;
`Scan` on the resulting `NullValue` panics inside `validate` — where
`reflect.TypeOf` returns the nil `reflect.Type` and `Kind` is invoked on
it — instead of returning the unsupported-destination error; `validateType`
(the analysis on an actual type) never reaches the panic, so `validate` is
total exactly on non-nil targets. -/
theorem scan_nil_target_panics :
    New GoAny.nil = GoAny.nullValuePtr GoAny.nil
    ∧ validate GoAny.nil = ValidateOutcome.panics
    ∧ (∀ slot fresh src, NullValue.scan GoAny.nil slot fresh src = ScanOutcome.panics)
    ∧ ∀ t : GoType, validateType t ≠ ValidateOutcome.panics := by
  refine ⟨rfl, rfl, fun slot fresh src => rfl, fun t hcontra => ?_⟩
  unfold validateType at hcontra
  split at hcontra
  · split at hcontra <;> try simp_all
    split at hcontra <;> simp_all
  · simp_all

/-- Witness for C9: scanning through `New(nil)` panics on a concrete call,
while `validateType` on a concrete type does not panic. -/
theorem scan_nil_target_panics_witness :
    NullValue.scan GoAny.nil Slot.nil 0 none = ScanOutcome.panics
    ∧ ¬ validateType GoType.bool = ValidateOutcome.panics :=
  ⟨scan_nil_target_panics.2.2.1 Slot.nil 0 none,
   scan_nil_target_panics.2.2.2 GoType.bool⟩

/-- **C10.**  `Target` is idempotent: each of its three possible outputs —
the `*NullValue` wrapper, the `*any` discard for nil input, and an
unsupported destination passed through — is itself non-nil and not
resolvable by `validate`, so a second application passes it through
unchanged. -/
theorem target_idempotent (x : GoAny) :
    Target (Target x) = Target x
    ∧ Target x ≠ GoAny.nil
    ∧ (validate (Target x)).isOk = false := by
  cases x with
  | nil => exact ⟨rfl, by decide, rfl⟩
  | nullValuePtr t =>
    exact ⟨rfl, fun h => GoAny.noConfusion (show GoAny.nullValuePtr t = GoAny.nil from h), rfl⟩
  | anyPtr id =>
    exact ⟨rfl, fun h => GoAny.noConfusion (show GoAny.anyPtr id = GoAny.nil from h), rfl⟩
  | prim ty i =>
    cases hv : (validate (GoAny.prim ty i)).isOk with
    | true =>
      have h1 : Target (GoAny.prim ty i) = GoAny.nullValuePtr (GoAny.prim ty i) := by
        simp [Target, New, hv]
      rw [h1]
      exact ⟨rfl, by simp, rfl⟩
    | false =>
      have h1 : Target (GoAny.prim ty i) = GoAny.prim ty i := by
        simp [Target, hv]
      rw [h1]
      exact ⟨h1, by simp, hv⟩

/-- Witness for C10: idempotence at the nil input, whose first application
yields the discard target. -/
theorem target_idempotent_witness :
    Target (Target GoAny.nil) = Target GoAny.nil
    ∧ Target GoAny.nil ≠ GoAny.nil
    ∧ (validate (Target GoAny.nil)).isOk = false :=
  target_idempotent GoAny.nil

/-- **C2.**  For every supported destination in any prior state — including
an inner pointer at previously allocated, non-empty storage — `Scan` with
an absent (SQL null) raw value sets the inner pointer to nil and returns no
error. -/
theorem scan_absent_clears_destination (target : GoAny) (k : ScalarKind)
    (ty : GoType) (slot : Slot) (fresh : Nat)
    (h : validate target = ValidateOutcome.ok k ty) :
    NullValue.scan target slot fresh none = ScanOutcome.ok Slot.nil fresh := by
  rw [scan_validated target k ty slot fresh none h]
  rfl

/-- Witness for C2: a `**bool` destination pointing at stale storage is
cleared by a null scan. -/
theorem scan_absent_clears_destination_witness :
    validate (GoAny.prim (.ptr (.ptr .bool)) 0)
      = ValidateOutcome.ok .boolean (.ptr (.ptr .bool))
    ∧ NullValue.scan (GoAny.prim (.ptr (.ptr .bool)) 0)
        (Slot.alloc 0 (.str "stale")) 7 none = ScanOutcome.ok Slot.nil 7 :=
  ⟨rfl, scan_absent_clears_destination (GoAny.prim (.ptr (.ptr .bool)) 0)
    .boolean (.ptr (.ptr .bool)) (Slot.alloc 0 (.str "stale")) 7 rfl⟩

/-- **C3.**  For every supported destination and present raw value that the
destination's holder parses successfully, `Scan` leaves the inner pointer
non-nil, pointing at the raw value converted to the destination's declared
innermost type — including a user-defined named type over the kind's
underlying representation, since `goConvert` classifies by underlying
kind. -/
theorem scan_present_writes_converted (target : GoAny) (k : ScalarKind)
    (ty : GoType) (slot : Slot) (fresh : Nat) (d v : DriverVal) (w : GoVal)
    (h1 : validate target = ValidateOutcome.ok k ty)
    (h2 : holderScan k (some d) = Except.ok (some v))
    (h3 : goConvert v ty.elem.elem = some w) :
    ∃ id fresh2, NullValue.scan target slot fresh (some d)
      = ScanOutcome.ok (Slot.alloc id w) fresh2 := by
  rw [scan_validated target k ty slot fresh (some d) h1]
  simp only [h2, h3]
  cases slot with
  | nil => exact ⟨fresh, fresh + 1, rfl⟩
  | alloc id v0 => exact ⟨id, fresh, rfl⟩

/-- Witness for C3: a destination whose innermost type is a named type over
`bool` receives the converted present value. -/
theorem scan_present_writes_converted_witness :
    validate (GoAny.prim (.ptr (.ptr (.named 7 .bool))) 0)
      = ValidateOutcome.ok .boolean (.ptr (.ptr (.named 7 .bool)))
    ∧ holderScan .boolean (some (.bool true)) = Except.ok (some (.bool true))
    ∧ goConvert (.bool true) (GoType.ptr (.ptr (.named 7 .bool))).elem.elem
        = some (.bool true)
    ∧ ∃ id fresh2,
        NullValue.scan (GoAny.prim (.ptr (.ptr (.named 7 .bool))) 0)
          Slot.nil 0 (some (.bool true))
          = ScanOutcome.ok (Slot.alloc id (.bool true)) fresh2 :=
  ⟨rfl, rfl, rfl,
   scan_present_writes_converted (GoAny.prim (.ptr (.ptr (.named 7 .bool))) 0)
     .boolean (.ptr (.ptr (.named 7 .bool))) Slot.nil 0 (.bool true)
     (.bool true) (.bool true) rfl rfl rfl⟩

/-- **C4.**  Whenever `Scan` returns an error — the unsupported-destination
classification failure or a conversion error from the holder's parse step —
the destination is left entirely untouched: the cell state and the
allocation counter after the call equal those before it. -/
theorem scan_error_leaves_destination_untouched (target : GoAny) (slot : Slot)
    (fresh : Nat) (src : Option DriverVal) (e : ScanError) (slot2 : Slot)
    (fresh2 : Nat)
    (h : NullValue.scan target slot fresh src = ScanOutcome.err e slot2 fresh2) :
    slot2 = slot ∧ fresh2 = fresh := by
  cases hv : validate target with
  | panics =>
    unfold NullValue.scan at h
    rw [hv] at h
    exact absurd h (by simp)
  | unsupported =>
    unfold NullValue.scan at h
    rw [hv] at h
    injection h with h0 h1 h2
    exact ⟨h1.symm, h2.symm⟩
  | ok k ty =>
    rw [scan_validated target k ty slot fresh src hv] at h
    cases hs : holderScan k src with
    | error u =>
      simp only [hs] at h
      injection h with h0 h1 h2
      exact ⟨h1.symm, h2.symm⟩
    | ok o =>
      cases o with
      | none =>
        simp only [hs] at h
        exact absurd h (by simp)
      | some v =>
        simp only [hs] at h
        cases hc : goConvert v ty.elem.elem with
        | none =>
          simp only [hc] at h
          exact absurd h (by simp)
        | some w =>
          simp only [hc] at h
          cases slot <;> exact absurd h (by simp)

/-- Witness for C4: an unsupported `*bool` destination (one level of
indirection) errors and its state is untouched. -/
theorem scan_error_leaves_destination_untouched_witness :
    NullValue.scan (GoAny.prim (.ptr .bool) 0) (Slot.alloc 3 (.bool true)) 5
      (some (.bool false))
      = ScanOutcome.err .unsupportedDestination (Slot.alloc 3 (.bool true)) 5
    ∧ (Slot.alloc 3 (GoVal.bool true) = Slot.alloc 3 (.bool true) ∧ 5 = 5) :=
  ⟨rfl, scan_error_leaves_destination_untouched (GoAny.prim (.ptr .bool) 0)
    (Slot.alloc 3 (.bool true)) 5 (some (.bool false)) .unsupportedDestination
    (Slot.alloc 3 (.bool true)) 5 rfl⟩

/-- **C5 (counterexample).**  The claim says a named type whose underlying
representation is the `time.Time` struct is classified as timestamp like
the unnamed equivalent; in the code the struct case is a nominal identity
check against `reflect.TypeOf(time.Time{})`, so a named type over
`time.Time` is rejected as unsupported. -/
theorem validate_named_time_unsupported_cex :
    validateType (.ptr (.ptr (.named 3 .timeTime))) = ValidateOutcome.unsupported
    ∧ validateType (.ptr (.ptr (.named 3 .timeTime)))
        ≠ ValidateOutcome.ok .timestamp (.ptr (.ptr (.named 3 .timeTime))) :=
  ⟨rfl, by decide⟩

/-- **C5 (amended).**  A named type whose underlying representation is one
of the seven non-struct scalar kinds is classified exactly as the
equivalent unnamed type (structurally, by underlying kind); a named type of
struct kind — including one whose underlying representation is the
`time.Time` struct — is unsupported, because the timestamp case is a
nominal check for exactly `time.Time`. -/
theorem validate_named_scalar (i : Nat) (u : GoType) (k : ScalarKind) :
    (u.kind ≠ .struct → specScalarKind u = some k →
      validateType (.ptr (.ptr (.named i u))) =
        ValidateOutcome.ok k (.ptr (.ptr (.named i u))))
    ∧ (u.kind = .struct →
      validateType (.ptr (.ptr (.named i u))) = ValidateOutcome.unsupported) := by
  constructor
  · intro hns hk
    simp only [validateType, kind_ptr, elem_ptr, and_self, if_true, kind_named]
    cases hc : u.kind <;> simp_all [specScalarKind]
  · intro hs
    simp only [validateType, kind_ptr, elem_ptr, and_self, if_true, kind_named, hs]
    simp

/-- Witness for the amended C5: a named type over `bool` classifies as
boolean, and a named type over a non-time struct is unsupported. -/
theorem validate_named_scalar_witness :
    validateType (.ptr (.ptr (.named 7 .bool)))
      = ValidateOutcome.ok .boolean (.ptr (.ptr (.named 7 .bool)))
    ∧ validateType (.ptr (.ptr (.named 7 (.structT 1))))
      = ValidateOutcome.unsupported :=
  ⟨(validate_named_scalar 7 GoType.bool .boolean).1 (by decide) rfl,
   (validate_named_scalar 7 (GoType.structT 1) .boolean).2 (by decide)⟩

/-- **C6.**  `Scanner` returns a list of the same length in positional
correspondence: a nil destination yields the `*any` discard target (which
the row-fetch engine fills without failing), a destination that `validate`
resolves yields a `NullValue` wrapper around it, any other destination is
passed through unchanged; `Scanner` is a total function, so no error is
raised at build time. -/
theorem scanner_positional (ts : List GoAny) :
    (Scanner ts).length = ts.length
    ∧ ∀ i, i < ts.length →
        ((Scanner ts).getD i GoAny.nil = Target (ts.getD i GoAny.nil)
        ∧ (ts.getD i GoAny.nil = GoAny.nil →
            (Scanner ts).getD i GoAny.nil = GoAny.anyPtr 0
            ∧ ∀ src, discardAccept src = Except.ok ())
        ∧ ((validate (ts.getD i GoAny.nil)).isOk = true →
            (Scanner ts).getD i GoAny.nil = New (ts.getD i GoAny.nil))
        ∧ (ts.getD i GoAny.nil ≠ GoAny.nil →
            (validate (ts.getD i GoAny.nil)).isOk = false →
            (Scanner ts).getD i GoAny.nil = ts.getD i GoAny.nil)) := by
  refine ⟨by simp [Scanner], ?_⟩
  intro i hi
  have hmap : (Scanner ts).getD i GoAny.nil = Target (ts.getD i GoAny.nil) := by
    unfold Scanner
    rw [List.getD_eq_getElem?_getD, List.getD_eq_getElem?_getD,
      List.getElem?_map, List.getElem?_eq_getElem hi]
    simp
  refine ⟨hmap, ?_, ?_, ?_⟩
  · intro hnil
    rw [hmap, hnil]
    exact ⟨rfl, fun _ => rfl⟩
  · intro hok
    have hne : ts.getD i GoAny.nil ≠ GoAny.nil := by
      intro he
      rw [he] at hok
      exact absurd hok (by decide)
    rw [hmap]
    have hgen : ∀ x : GoAny, x ≠ GoAny.nil → (validate x).isOk = true →
        Target x = New x := fun x hx hxo => by simp [Target, hx, hxo]
    exact hgen _ hne hok
  · intro hne hnok
    rw [hmap]
    have hgen : ∀ x : GoAny, x ≠ GoAny.nil → (validate x).isOk = false →
        Target x = x := fun x hx hxo => by simp [Target, hx, hxo]
    exact hgen _ hne hnok

/-- Witness for C6: a mixed list (nil, supported, unsupported) is wrapped
positionally. -/
theorem scanner_positional_witness :
    (Scanner [GoAny.nil, GoAny.prim (.ptr (.ptr .bool)) 0, GoAny.prim .int 1]).length = 3
    ∧ (Scanner [GoAny.nil, GoAny.prim (.ptr (.ptr .bool)) 0,
        GoAny.prim .int 1]).getD 0 GoAny.nil = GoAny.anyPtr 0
    ∧ (Scanner [GoAny.nil, GoAny.prim (.ptr (.ptr .bool)) 0,
        GoAny.prim .int 1]).getD 1 GoAny.nil
        = New (GoAny.prim (.ptr (.ptr .bool)) 0)
    ∧ (Scanner [GoAny.nil, GoAny.prim (.ptr (.ptr .bool)) 0,
        GoAny.prim .int 1]).getD 2 GoAny.nil = GoAny.prim .int 1 := by
  have h := scanner_positional [GoAny.nil, GoAny.prim (.ptr (.ptr .bool)) 0,
    GoAny.prim .int 1]
  exact ⟨h.1,
    ((h.2 0 (by decide)).2.1 rfl).1,
    (h.2 1 (by decide)).2.2.1 rfl,
    (h.2 2 (by decide)).2.2.2 (by decide) rfl⟩

/-- **C7 (counterexample).**  The claim says the inner pointer after a
successful present-value scan points at freshly allocated storage.  When
the inner pointer already points at storage (`val.Elem().CanAddr()`), the
code writes through it instead of allocating: starting from storage with
allocation identifier 0 and allocation counter 1 (so identifier 0 predates
the call), the scan ends with the same identifier 0 and the counter still
1 — no fresh allocation occurred. -/
theorem scan_reuses_storage_cex :
    NullValue.scan (GoAny.prim (.ptr (.ptr .bool)) 0) (Slot.alloc 0 (.bool true)) 1
      (some (.bool false))
      = ScanOutcome.ok (Slot.alloc 0 (GoVal.bool false)) 1
    ∧ 0 < 1 :=
  ⟨rfl, by decide⟩

/-- **C7 (amended).**  After every successful `Scan`, the inner pointer is
nil when the raw value was absent (never stale), and otherwise points at
storage holding the converted value — storage freshly allocated when the
inner pointer was previously nil, and the previously allocated storage
written through (reused, same allocation identifier) otherwise. -/
theorem scan_result_invariant (target : GoAny) (slot : Slot) (fresh : Nat)
    (src : Option DriverVal) (slot2 : Slot) (fresh2 : Nat)
    (h : NullValue.scan target slot fresh src = ScanOutcome.ok slot2 fresh2) :
    (src = none → slot2 = Slot.nil ∧ fresh2 = fresh)
    ∧ (slot2 = Slot.nil
       ∨ ∃ id w, slot2 = Slot.alloc id w
          ∧ ((slot = Slot.nil ∧ id = fresh ∧ fresh2 = fresh + 1)
             ∨ ∃ v0, slot = Slot.alloc id v0 ∧ fresh2 = fresh)
          ∧ ∃ k ty d v, validate target = ValidateOutcome.ok k ty ∧ src = some d
              ∧ holderScan k (some d) = Except.ok (some v)
              ∧ goConvert v ty.elem.elem = some w) := by
  cases hv : validate target with
  | panics =>
    unfold NullValue.scan at h
    rw [hv] at h
    exact absurd h (by simp)
  | unsupported =>
    unfold NullValue.scan at h
    rw [hv] at h
    exact absurd h (by simp)
  | ok k ty =>
    rw [scan_validated target k ty slot fresh src hv] at h
    cases src with
    | none =>
      simp only [holderScan] at h
      injection h with h1 h2
      exact ⟨fun _ => ⟨h1.symm, h2.symm⟩, Or.inl h1.symm⟩
    | some d =>
      cases hs : holderScan k (some d) with
      | error u =>
        simp only [hs] at h
        exact absurd h (by simp)
      | ok o =>
        cases o with
        | none =>
          simp only [hs] at h
          injection h with h1 h2
          exact ⟨fun hc => Option.noConfusion hc, Or.inl h1.symm⟩
        | some v =>
          simp only [hs] at h
          cases hc : goConvert v ty.elem.elem with
          | none =>
            simp only [hc] at h
            exact absurd h (by simp)
          | some w =>
            simp only [hc] at h
            cases slot with
            | nil =>
              injection h with h1 h2
              exact ⟨fun hc2 => Option.noConfusion hc2,
                Or.inr ⟨fresh, w, h1.symm, Or.inl ⟨rfl, rfl, h2.symm⟩,
                  k, ty, d, v, rfl, rfl, hs, hc⟩⟩
            | alloc id v0 =>
              injection h with h1 h2
              exact ⟨fun hc2 => Option.noConfusion hc2,
                Or.inr ⟨id, w, h1.symm, Or.inr ⟨v0, rfl, h2.symm⟩,
                  k, ty, d, v, rfl, rfl, hs, hc⟩⟩

/-- Witness for the amended C7: a present scan into a previously nil inner
pointer allocates the storage with the current counter value. -/
theorem scan_result_invariant_witness :
    NullValue.scan (GoAny.prim (.ptr (.ptr .bool)) 0) Slot.nil 4 (some (.bool true))
      = ScanOutcome.ok (Slot.alloc 4 (GoVal.bool true)) 5
    ∧ (Slot.alloc 4 (GoVal.bool true) = Slot.nil
       ∨ ∃ id w, Slot.alloc 4 (GoVal.bool true) = Slot.alloc id w
          ∧ ((Slot.nil = Slot.nil ∧ id = 4 ∧ 5 = 4 + 1)
             ∨ ∃ v0, Slot.nil = Slot.alloc id v0 ∧ 5 = 4)
          ∧ ∃ k ty d v, validate (GoAny.prim (.ptr (.ptr .bool)) 0)
                = ValidateOutcome.ok k ty
              ∧ (some (DriverVal.bool true) : Option DriverVal) = some d
              ∧ holderScan k (some d) = Except.ok (some v)
              ∧ goConvert v ty.elem.elem = some w) :=
  ⟨rfl, (scan_result_invariant (GoAny.prim (.ptr (.ptr .bool)) 0) Slot.nil 4
    (some (.bool true)) (Slot.alloc 4 (GoVal.bool true)) 5 rfl).2⟩

end Sqlnull
